import Mathlib

/-!
Verification of the unified error type of the h2 crate (`src/error.rs`)
against its natural-language specification.

The file shallowly embeds `src/error.rs`. The `Error` struct, its `Kind`
union, the inspection methods (`reason`, `is_io`, `get_io`, `into_io`),
the five conversion paths and the `Display` rendering are translated
directly from that file. The external types the file consumes
(`Reason`, `Initiator`, `StreamId`, `Bytes`, `UserError`,
`proto::Error`, `SendError`, `io::Error`) live outside the given source
tree, so they are modelled from the specification, each marked as such
in its doc comment. `Arc` is modelled transparently: in a pure value
embedding a shared payload and its referent coincide.
-/

namespace H2

/-- Modelled from the spec: `StreamId` is an opaque identifier of a
multiplexed logical stream (an external type); modelled as a natural
number. -/
abbrev StreamId : Type := Nat

/-- Modelled from the spec: `Initiator` is enumerated {Local, Remote},
recording who triggered a Reset or GoAway. -/
inductive Initiator : Type
  | Local : Initiator
  | Remote : Initiator

/-- Modelled from the spec: the canonical display text of an
`Initiator` as used in the rendering table of section 4.1
(`stream reset by remote`, `go away from local`). -/
def Initiator.display : Initiator → String
  | .Local => "local"
  | .Remote => "remote"

/-- Modelled from the spec: `Reason` is an enumerated protocol error
code, an opaque comparable and displayable value; modelled, as in the
protocol, as a wrapped numeric code. -/
structure Reason : Type where
  code : Nat
deriving DecidableEq

/-- Modelled from the spec: the `NO_ERROR` protocol error code. -/
def Reason.NO_ERROR : Reason := ⟨0⟩

/-- Modelled from the spec: the `PROTOCOL_ERROR` protocol error code. -/
def Reason.PROTOCOL_ERROR : Reason := ⟨1⟩

/-- Modelled from the spec: the canonical display text of a `Reason`
(its description), as used by the rendering table and the examples of
section 8 (`no error`, `protocol error`). -/
def Reason.description (r : Reason) : String :=
  match r.code with
  | 0 => "no error"
  | 1 => "protocol error"
  | _ => "unknown reason code"

/-- Modelled from the spec: the opaque debug byte payload carried by a
GoAway; modelled as a list of byte values. -/
abbrev Bytes : Type := List Nat

/-- Emptiness test on a debug payload, mirroring `Bytes::is_empty`. -/
def Bytes.is_empty (b : Bytes) : Bool := List.isEmpty b

/-- Modelled from the spec: the debug-formatted rendering of the byte
payload, as in the section 8 example where payload 1, 2, 3 renders as
`[1, 2, 3]`. -/
def Bytes.debugFmt (b : Bytes) : String :=
  "[" ++ String.intercalate ", " (List.map toString b) ++ "]"

/-- Modelled from the spec: a `UserError` is a user-error code with its
own display text; modelled as that display text. -/
structure UserError : Type where
  text : String
deriving DecidableEq

/-- Modelled from the spec: a transport (`io::Error`) failure carries
an error classification (`kind`) and a textual message; its display
text is that message. (`std::io::Error` is outside the repository.) -/
structure IoError : Type where
  kind : Nat
  msg : String
deriving DecidableEq

/-- The display text of a transport error: its message, mirroring the
`to_string` of `std::io::Error`. -/
def IoError.display (e : IoError) : String := e.msg

/-- Construction of a fresh transport error from a classification and a
message, mirroring `io::Error::new(kind, msg)`: the new value carries
that classification and displays that message. -/
def IoError.new (k : Nat) (m : String) : IoError := ⟨k, m⟩

/-- Modelled from the spec: the protocol-engine error
(`proto::Error`), a union of three cases — stream reset with stream id,
reason and initiator; connection termination with debug payload, reason
and initiator; and a wrapped transport fault. -/
inductive ProtoError : Type
  | Reset (stream_id : StreamId) (reason : Reason) (initiator : Initiator)
  | GoAway (debug_data : Bytes) (reason : Reason) (initiator : Initiator)
  | Io (e : IoError)

/-- Modelled from the spec: the send-path error (`SendError`), a union
of an invalid-local-API-usage case and an underlying connection-level
(protocol-engine) error case. -/
inductive SendError : Type
  | User (e : UserError)
  | Connection (e : ProtoError)

/-- The internal tagged union of `Error` (src/error.rs lines 26 to 43):
exactly one variant per origin. The `Io` arm holds the shared transport
error (`Arc<io::Error>`, modelled transparently). -/
inductive Kind : Type
  | Reset (stream_id : StreamId) (reason : Reason) (initiator : Initiator)
  | GoAway (debug_data : Bytes) (reason : Reason) (initiator : Initiator)
  | Reason (reason : Reason)
  | User (e : UserError)
  | Io (e : IoError)

/-- The public `Error` struct (src/error.rs lines 21 to 24): an opaque
wrapper around one `Kind`. -/
structure Error : Type where
  kind : Kind

/-- `Error::reason` (src/error.rs lines 52 to 57): the reason for the
`Reset` and `GoAway` arms, `None` for every other arm. -/
def Error.reason (e : Error) : Option Reason :=
  match e.kind with
  | .Reset _ reason _ => some reason
  | .GoAway _ reason _ => some reason
  | _ => none

/-- `Error::is_io` (src/error.rs lines 60 to 65): true exactly on the
`Io` arm. -/
def Error.is_io (e : Error) : Bool :=
  match e.kind with
  | .Io _ => true
  | _ => false

/-- `Error::get_io` (src/error.rs lines 68 to 73): a borrowed view of
the wrapped transport error on the `Io` arm, `None` otherwise. -/
def Error.get_io (e : Error) : Option IoError :=
  match e.kind with
  | .Io e => some e
  | _ => none

/-- `Error::into_io` (src/error.rs lines 76 to 81): on the `Io` arm,
a fresh transport error built by `io::Error::new` from the original
classification and display text; `None` otherwise. -/
def Error.into_io (e : Error) : Option IoError :=
  match e.kind with
  | .Io e => some (IoError.new e.kind (IoError.display e))
  | _ => none

/-- `Error::from_io` (src/error.rs lines 83 to 87): wraps a raw
transport failure in shared ownership under the `Io` arm. -/
def Error.from_io (err : IoError) : Error := ⟨.Io err⟩

/-- `From<proto::Error> for Error` (src/error.rs lines 90 to 104): the
three protocol-engine cases map one to one onto `Reset`, `GoAway` and
`Io`. -/
def Error.fromProto : ProtoError → Error
  | .Reset stream_id reason initiator => ⟨.Reset stream_id reason initiator⟩
  | .GoAway debug_data reason initiator => ⟨.GoAway debug_data reason initiator⟩
  | .Io e => ⟨.Io e⟩

/-- `From<Reason> for Error` (src/error.rs lines 106 to 112): a bare
reason code becomes the `Reason` arm. -/
def Error.fromReason (src : Reason) : Error := ⟨.Reason src⟩

/-- `From<UserError> for Error` (src/error.rs lines 123 to 129): a
user-error code becomes the `User` arm. -/
def Error.fromUser (src : UserError) : Error := ⟨.User src⟩

/-- `From<SendError> for Error` (src/error.rs lines 114 to 121): the
user case converts as a user error, the connection case delegates to
the protocol-engine conversion. -/
def Error.fromSend : SendError → Error
  | .User e => Error.fromUser e
  | .Connection e => Error.fromProto e

/-- `impl fmt::Display for Error` (src/error.rs lines 131 to 148),
translated arm by arm; the `GoAway` arm first writes the base text and
then appends the parenthesized debug-formatted payload only when the
payload is non-empty, as the source does. -/
def Error.display (e : Error) : String :=
  match e.kind with
  | .Reset _ reason initiator =>
      "stream reset by " ++ Initiator.display initiator ++ ": " ++ Reason.description reason
  | .GoAway debug_data reason initiator =>
      let base := "go away from " ++ Initiator.display initiator ++ ": " ++ Reason.description reason
      if Bytes.is_empty debug_data then base
      else base ++ " (" ++ Bytes.debugFmt debug_data ++ ")"
  | .Reason reason => "protocol error: " ++ Reason.description reason
  | .User e => "user error: " ++ e.text
  | .Io e => IoError.display e

/-- The `std::error::Error` impl for `Error` (src/error.rs line 151) is
empty, so the `source` method is the trait default, which returns
`None` whatever the value is. -/
def Error.source (_ : Error) : Option IoError := none

/-- Discriminates the `Reset` arm of `Kind`. -/
def Kind.isReset : Kind → Bool
  | .Reset _ _ _ => true
  | _ => false

/-- Discriminates the `GoAway` arm of `Kind`. -/
def Kind.isGoAway : Kind → Bool
  | .GoAway _ _ _ => true
  | _ => false

/-- Discriminates the bare-`Reason` arm of `Kind`. -/
def Kind.isReasonArm : Kind → Bool
  | .Reason _ => true
  | _ => false

/-- Discriminates the `User` arm of `Kind`. -/
def Kind.isUser : Kind → Bool
  | .User _ => true
  | _ => false

/-- Discriminates the `Io` arm of `Kind`. -/
def Kind.isIo : Kind → Bool
  | .Io _ => true
  | _ => false

/-- How many of the five `Kind` variants are active on a value. -/
def Kind.activeCount (k : Kind) : Nat :=
  k.isReset.toNat + k.isGoAway.toNat + k.isReasonArm.toNat + k.isUser.toNat + k.isIo.toNat

/-- The rendering table of section 4.1, written the way the spec states
it: one row per constructed variant, with distinct rows for `GoAway`
with an empty and with a non-empty debug payload, and full delegation
to the wrapped transport fault for `Io`. -/
def displaySpecTable (e : Error) : String :=
  match e.kind with
  | .Reset _ reason initiator =>
      "stream reset by " ++ Initiator.display initiator ++ ": " ++ Reason.description reason
  | .GoAway debug_data reason initiator =>
      if Bytes.is_empty debug_data then
        "go away from " ++ Initiator.display initiator ++ ": " ++ Reason.description reason
      else
        "go away from " ++ Initiator.display initiator ++ ": " ++ Reason.description reason
          ++ " (" ++ Bytes.debugFmt debug_data ++ ")"
  | .Reason reason => "protocol error: " ++ Reason.description reason
  | .User u => "user error: " ++ u.text
  | .Io e => IoError.display e

/-- C1: `reason()` returns `Some` exactly when the active `Kind` is
`Reset` or `GoAway`, in which case it is exactly the `Reason` carried
by that variant; for the `Reason`, `User` and `Io` variants it returns
`None`. -/
theorem reason_some_iff_reset_or_goaway (e : Error) (sid : StreamId) (d : Bytes)
    (r : Reason) (i : Initiator) (u : UserError) (t : IoError) :
    (e.reason).isSome = (e.kind.isReset || e.kind.isGoAway)
    ∧ (Error.mk (Kind.Reset sid r i)).reason = some r
    ∧ (Error.mk (Kind.GoAway d r i)).reason = some r
    ∧ (Error.mk (Kind.Reason r)).reason = none
    ∧ (Error.mk (Kind.User u)).reason = none
    ∧ (Error.mk (Kind.Io t)).reason = none := by
  refine ⟨?_, rfl, rfl, rfl, rfl, rfl⟩
  obtain ⟨k⟩ := e
  cases k <;> rfl

/-- C2: `is_io()` is true exactly when `get_io()` returns `Some`,
which happens exactly when the error is the transport wrap of some
transport fault; the wrap built by `from_io` (and by the
protocol-engine conversion on its wrapped-transport case, which
produces the same value) yields back through `get_io` exactly the
fault wrapped at construction. -/
theorem is_io_iff_get_io_iff_transport (e : Error) (t : IoError) :
    (e.is_io = (e.get_io).isSome)
    ∧ (e.get_io = some t ↔ e = Error.from_io t)
    ∧ (Error.from_io t).is_io = true
    ∧ (Error.from_io t).get_io = some t
    ∧ Error.fromProto (ProtoError.Io t) = Error.from_io t := by
  refine ⟨?_, ?_, rfl, rfl, rfl⟩
  · obtain ⟨k⟩ := e
    cases k <;> rfl
  · obtain ⟨k⟩ := e
    cases k <;> simp [Error.get_io, Error.from_io]

/-- C3: the display text of every constructed `Error` is exactly the
text given by the rendering table of section 4.1, including the
parenthesized debug payload appearing only when it is non-empty. -/
theorem display_matches_spec_table (e : Error) :
    e.display = displaySpecTable e := by
  obtain ⟨k⟩ := e
  cases k with
  | GoAway d r i =>
      cases d <;> rfl
  | _ => rfl

/-- C4: `into_io()` returns `Some` exactly on the `Io` kind, and the
returned transport error is freshly built by `io::Error::new` from the
wrapped fault, carrying the same classification and the same display
text; on every other kind it returns `None`. -/
theorem into_io_preserves_kind_and_message (e : Error) (t : IoError) :
    ((e.into_io).isSome = e.kind.isIo)
    ∧ (Error.mk (Kind.Io t)).into_io = some (IoError.new t.kind (IoError.display t))
    ∧ (IoError.new t.kind (IoError.display t)).kind = t.kind
    ∧ IoError.display (IoError.new t.kind (IoError.display t)) = IoError.display t := by
  refine ⟨?_, rfl, rfl, rfl⟩
  obtain ⟨k⟩ := e
  cases k <;> rfl

/-- C5: converting the send-path error `SendError::Connection(e)` gives
the very same `Error` as converting the connection-level error `e`
directly, so every inspection (`reason`, `is_io`, `get_io`, `into_io`)
and the display text agree between the two. -/
theorem send_connection_roundtrip (e : ProtoError) :
    Error.fromSend (SendError.Connection e) = Error.fromProto e
    ∧ (Error.fromSend (SendError.Connection e)).reason = (Error.fromProto e).reason
    ∧ (Error.fromSend (SendError.Connection e)).is_io = (Error.fromProto e).is_io
    ∧ (Error.fromSend (SendError.Connection e)).get_io = (Error.fromProto e).get_io
    ∧ (Error.fromSend (SendError.Connection e)).into_io = (Error.fromProto e).into_io
    ∧ (Error.fromSend (SendError.Connection e)).display = (Error.fromProto e).display :=
  ⟨rfl, rfl, rfl, rfl, rfl, rfl⟩

/-- C6, counterexample: an `Error` built from the bare reason code
`PROTOCOL_ERROR` has `reason()` equal to `none`, not
`some PROTOCOL_ERROR` as the claim states. -/
theorem fromReason_reason_not_some :
    ¬ (Error.fromReason Reason.PROTOCOL_ERROR).reason = some Reason.PROTOCOL_ERROR := by
  simp [Error.fromReason, Error.reason]

/-- C6, amended: for every `Error` constructed from a bare `Reason`
code (the `Kind::Reason` variant), `reason()` returns `None` — only
the `Reset` and `GoAway` variants yield a reason. -/
theorem fromReason_reason_none (r : Reason) :
    (Error.fromReason r).reason = none := rfl

/-- C7: the `Error` built from a `GoAway` with initiator Local, reason
`NO_ERROR` and the non-empty debug payload of bytes 1, 2, 3 displays
exactly as stated. -/
theorem goaway_example_display :
    (Error.fromProto (ProtoError.GoAway [1, 2, 3] Reason.NO_ERROR Initiator.Local)).display
      = "go away from local: no error ([1, 2, 3])" := rfl

/-- C9: every conversion path is a total function producing an `Error`
with exactly one active `Kind` variant, and every `Error` value has
exactly one active variant, so the total inspection and display
functions are defined on all of them. -/
theorem conversions_total_one_active_kind (e : Error) (p : ProtoError) (r : Reason)
    (s : SendError) (u : UserError) (t : IoError) :
    e.kind.activeCount = 1
    ∧ (Error.fromProto p).kind.activeCount = 1
    ∧ (Error.fromReason r).kind.activeCount = 1
    ∧ (Error.fromSend s).kind.activeCount = 1
    ∧ (Error.fromUser u).kind.activeCount = 1
    ∧ (Error.from_io t).kind.activeCount = 1 := by
  have h : ∀ k : Kind, k.activeCount = 1 := by
    intro k
    cases k <;> rfl
  exact ⟨h _, h _, h _, h _, h _, h _⟩

/-- C10: the standard error-trait implementation is empty, so the
source-chain query returns `None` on every `Error`, while on an
`Io`-kind error the wrapped transport fault is still reachable through
`get_io` and `into_io`. -/
theorem source_chain_always_none (e : Error) (t : IoError) :
    e.source = none
    ∧ (Error.from_io t).source = none
    ∧ (Error.from_io t).get_io = some t
    ∧ (Error.from_io t).into_io = some (IoError.new t.kind (IoError.display t)) :=
  ⟨rfl, rfl, rfl, rfl⟩

end H2
